import Mathlib

/-!
Verification of the evtrack UI tracking module (`src/js/src/trackui.js`).

The module is a single mutable object `TrackUI` holding configuration
(`settings`), the server-assigned user id (`uid`), the sampling clock
(`time`) and the buffer of serialized event rows (`info`).  We embed it
as an explicit state record and translate each method of the object into
a pure function on that state.  External stimuli (DOM events, timer
fires, XHR responses, page unload) are modelled as an `Action` type and
a total `step` function; a trace is a fold of `step` over a list of
actions, collecting the network sends the code issues.
-/

namespace Evtrack

/-- `TrackUI.settings` (trackui.js lines 14-29), after `record` has merged
the caller's configuration over the defaults. -/
structure Settings where
  postServer : String
  postInterval : Nat
  samplingFreq : Int
  taskName : String
  layoutType : String
deriving DecidableEq

/-- The default settings object (trackui.js lines 14-29). -/
def defaultSettings : Settings :=
  { postServer := "http://my.server.org/save.script"
    postInterval := 30
    samplingFreq := 10
    taskName := "evtrack"
    layoutType := "liquid" }

/-- A raw browser event as seen by `eventHandler` after `TrackLib.Events.fix`:
cursor id, page/client coordinates, the accumulated document scroll offsets
at event time, the event type string and the XPath of the target element
(the result of `TrackLib.XPath.getXPath(e.target)` in `findElement`). -/
structure RawEvent where
  id : Int
  pageX : Int
  pageY : Int
  clientX : Int
  clientY : Int
  scrollLeft : Int
  scrollTop : Int
  type : String
  target : String
deriving DecidableEq

/-- Window/document/screen metrics fetched at init time
(trackui.js lines 81-89); `url` is the already-escaped page URL. -/
structure Metrics where
  url : String
  screenw : Int
  screenh : Int
  winw : Int
  winh : Int
  docw : Int
  doch : Int
deriving DecidableEq

/-- The mutable fields of the `TrackUI` object, plus the scheduler facts the
browser environment keeps for it: whether the one-shot `setTimeout` armed by
`record` (line 68) is still pending, whether the recurring `setInterval`
armed by `setUserId` (line 111) is running (and its period in ms), whether
an asynchronous init request is awaiting its `setUserId` callback, and
whether the unload handler has already run.  `uid` is a JS number:
`none` models the `NaN` a failed `parseInt` stores. -/
structure State where
  settings : Settings
  uid : Option Int
  time : Int
  info : List String
  initTimerArmed : Bool
  appendIntervalMs : Option Nat
  pendingInit : Bool
  flushed : Bool
deriving DecidableEq

/-- JS truthiness of the stored `uid` number: `0` and `NaN` are falsy. -/
def uidTruthy : Option Int → Bool
  | none => false
  | some n => n != 0

/-- Rendering of the stored `uid` number by JS string concatenation. -/
def jsNumToString : Option Int → String
  | none => "NaN"
  | some n => toString n

/-- Longest leading run of decimal digits, as a number; `none` when the
input starts with a non-digit (accumulator starts empty). -/
def jsDigits : List Char → Option Nat → Option Nat
  | [], acc => acc
  | c :: rest, acc =>
      if c.isDigit then jsDigits rest (some ((acc.getD 0) * 10 + (c.toNat - '0'.toNat)))
      else acc

/-- JavaScript `parseInt(s)` with no radix argument on a non-hex string:
skip leading whitespace, read an optional sign and then the longest prefix
of decimal digits; `none` models the `NaN` returned when no digit follows. -/
def parseIntJS (s : String) : Option Int :=
  let cs := s.data.dropWhile (fun c => c.isWhitespace)
  match cs with
  | '-' :: rest => (jsDigits rest none).map (fun n => -(n : Int))
  | '+' :: rest => (jsDigits rest none).map (fun n => (n : Int))
  | _ => (jsDigits cs none).map (fun n => (n : Int))

/-- `getMousePos` (trackui.js lines 210-226): prefer page coordinates when
either is truthy, else client coordinates plus scroll, then clamp falsy or
negative components to 0. -/
def getMousePos (e : RawEvent) : Int × Int :=
  let cx : Int :=
    if e.pageX != 0 || e.pageY != 0 then e.pageX
    else if e.clientX != 0 || e.clientY != 0 then e.clientX + e.scrollLeft
    else 0
  let cy : Int :=
    if e.pageX != 0 || e.pageY != 0 then e.pageY
    else if e.clientX != 0 || e.clientY != 0 then e.clientY + e.scrollTop
    else 0
  (if cx == 0 || cx < 0 then 0 else cx, if cy == 0 || cy < 0 then 0 else cy)

/-- One row pushed by `fillInfo` (trackui.js line 247): the fields joined
with single spaces by JS string concatenation. -/
def fillInfoRow (id : Int) (time : Int) (x y : Int) (event element : String) : String :=
  toString id ++ " " ++ toString time ++ " " ++ toString x ++ " " ++ toString y ++ " " ++
    event ++ " " ++ element

/-- The sampling decision of `eventHandler` (trackui.js lines 177-181):
`register` starts `true` and is replaced by the elapsed-time test only when
`samplingFreq > 0`; `samplingFreq` is compared directly against elapsed
milliseconds. -/
def shouldRecord (freq : Int) (lastTime now : Int) : Bool :=
  if freq > 0 then decide (now - lastTime ≥ freq) else true

/-- `eventHandler` (trackui.js lines 171-187): on acceptance push one
`fillInfo` row and advance the sampling clock; otherwise leave the state
untouched.  `timeNow` is the `new Date().getTime()` reading taken inside
the handler. -/
def eventHandler (s : State) (e : RawEvent) (timeNow : Int) : State :=
  if shouldRecord s.settings.samplingFreq s.time timeNow then
    { s with
        info := s.info ++
          [fillInfoRow e.id timeNow (getMousePos e).1 (getMousePos e).2 e.type e.target]
        time := timeNow }
  else s

/-- `touchHandler` (trackui.js lines 193-202): iterate over
`e.changedTouches`, overwrite each touch's `type` with the enclosing
event's type, and run `eventHandler` on each touch in order.  `times` are
the per-invocation `new Date().getTime()` readings, one per contact. -/
def touchHandler (s : State) (etype : String) (changedTouches : List RawEvent)
    (times : List Int) : State :=
  (changedTouches.zip times).foldl
    (fun st p => eventHandler st { p.1 with type := etype } p.2) s

/-- The serialization of `TrackUI.info` produced by JS string coercion of
the array in `"&info=" + TrackUI.info` (lines 90 and 123): elements joined
by commas. -/
def serializeInfo (info : List String) : String := String.intercalate "," info

/-- The shape of an outbound request body: an `action=init` request
(trackui.js lines 80-102) or an `action=append` request (lines 121-132). -/
inductive Payload where
  | init (m : Metrics) (info : List String) (task layout : String)
  | append (uid : Option Int) (info : List String)
deriving DecidableEq

/-- `true` exactly on `action=append` payloads. -/
def isAppend : Payload → Bool
  | Payload.append _ _ => true
  | Payload.init _ _ _ _ => false

/-- The `postdata` string the code assembles for a payload
(trackui.js lines 83-93 and 122-124). -/
def payloadData : Payload → String
  | Payload.init m info task layout =>
      "url=" ++ m.url ++ "&screenw=" ++ toString m.screenw ++ "&screenh=" ++
        toString m.screenh ++ "&winw=" ++ toString m.winw ++ "&winh=" ++ toString m.winh ++
        "&docw=" ++ toString m.docw ++ "&doch=" ++ toString m.doch ++ "&info=" ++
        serializeInfo info ++ "&task=" ++ task ++ "&layout=" ++ layout ++ "&action=" ++ "init"
  | Payload.append uid info =>
      "uid=" ++ jsNumToString uid ++ "&info=" ++ serializeInfo info ++ "&action=" ++ "append"

/-- One request handed to `TrackUI.send` / `TrackLib.XHR.sendAjaxRequest`:
its payload, its `async` flag, and whether a response callback
(`setUserId`) was registered — only init requests register one. -/
structure SendAction where
  payload : Payload
  async : Bool
  hasCallback : Bool
deriving DecidableEq

/-- `initNewData` (trackui.js lines 80-102): issue one init request
carrying the whole buffer, then unconditionally clear the buffer.  The
request outcome is not observed here — the clearing happens right after
the request is issued, succeed or fail. -/
def initNewData (s : State) (m : Metrics) (async : Bool) : SendAction × State :=
  ({ payload := Payload.init m s.info s.settings.taskName s.settings.layoutType
     async := async
     hasCallback := true },
   { s with info := [] })

/-- `appendData` (trackui.js lines 121-132): issue one append request
carrying `uid` and the whole buffer, then unconditionally clear the
buffer; no callback is registered. -/
def appendData (s : State) (async : Bool) : SendAction × State :=
  ({ payload := Payload.append s.uid s.info
     async := async
     hasCallback := false },
   { s with info := [] })

/-- `setUserId` (trackui.js lines 108-115): store `parseInt(response)` in
`uid`; if the stored value is truthy, start the recurring append interval
with period `postInterval*1000` milliseconds. -/
def setUserId (s : State) (response : String) : State :=
  let uid := parseIntJS response
  if uidTruthy uid then
    { s with uid := uid, appendIntervalMs := some (s.settings.postInterval * 1000) }
  else
    { s with uid := uid }

/-- `flush` (trackui.js lines 254-261): one synchronous send — append when
`uid` is truthy, init otherwise.  A synchronous init request delivers its
response to the `setUserId` callback before returning. -/
def flush (s : State) (m : Metrics) (response : String) : SendAction × State :=
  if uidTruthy s.uid then
    appendData s false
  else
    let r := initNewData s m false
    (r.1, setUserId r.2 response)

/-- The external stimuli the browser can feed to the module: a non-touch
UI event, a touch event with its contact list, the firing of the one-shot
init timer, the arrival of an async init response, a tick of the recurring
append interval, and page unload (whose `response` is the reply to the
synchronous init request, used only on the unestablished branch). -/
inductive Action where
  | uiEvent (e : RawEvent) (timeNow : Int)
  | touch (etype : String) (changedTouches : List RawEvent) (times : List Int)
  | initTimerFire (m : Metrics)
  | initResponse (response : String)
  | intervalTick
  | unload (m : Metrics) (response : String)
deriving DecidableEq

/-- One environment step.  After unload the page is gone, so every action
is a no-op; a timer that is not armed does not fire; a response without a
pending request does not arrive.  Returns the send the code issued, if
any, and the next state. -/
def step (s : State) (a : Action) : Option SendAction × State :=
  if s.flushed then (none, s) else
  match a with
  | Action.uiEvent e now => (none, eventHandler s e now)
  | Action.touch ty ts tms => (none, touchHandler s ty ts tms)
  | Action.initTimerFire m =>
      if s.initTimerArmed then
        let r := initNewData s m true
        (some r.1, { r.2 with initTimerArmed := false, pendingInit := true })
      else (none, s)
  | Action.initResponse resp =>
      if s.pendingInit then (none, { setUserId s resp with pendingInit := false })
      else (none, s)
  | Action.intervalTick =>
      match s.appendIntervalMs with
      | some _ => let r := appendData s true; (some r.1, r.2)
      | none => (none, s)
  | Action.unload m resp =>
      let r := flush s m resp
      (some r.1, { r.2 with flushed := true })

/-- The send log contributed by one step: the issued send, if any, paired
with the state it was issued from. -/
def emits (s : State) : Option SendAction → List (State × SendAction)
  | some sa => [(s, sa)]
  | none => []

/-- Run a list of actions, collecting each issued send paired with the
state from which it was issued. -/
def runTrace (s : State) : List Action → List (State × SendAction) × State
  | [] => ([], s)
  | a :: rest =>
      (emits s (step s a).1 ++ (runTrace (step s a).2 rest).1,
       (runTrace (step s a).2 rest).2)

/-- The state right after `record(config)` returned (trackui.js lines
47-74): settings merged, `uid = 0`, sampling clock at the load-time
reading `t0`, empty buffer, the one-shot init timer armed, no recurring
interval, no request in flight. -/
def initialState (st : Settings) (t0 : Int) : State :=
  { settings := st
    uid := some 0
    time := t0
    info := []
    initTimerArmed := true
    appendIntervalMs := none
    pendingInit := false
    flushed := false }

/-- A sequence of `eventHandler` invocations, one per raw event paired
with its clock reading; this is the state evolution a burst of captured
non-touch events produces. -/
def processEvents (s : State) : List (RawEvent × Int) → State
  | [] => s
  | p :: rest => processEvents (eventHandler s p.1 p.2) rest

/-- Spec-side description of the `info` rows (spec sections 6 and 8): one
string per accepted event in capture order, each record space-joined as
`cursorId timestamp x y eventKind targetLocator`, acceptance gated by the
sampling filter (`samplingFreq <= 0` accepts everything, otherwise the
event is accepted iff it is at least `samplingFreq` ms after the last
accepted one, which then becomes the new reference point). -/
def specInfoRows (freq : Int) : Int → List (RawEvent × Int) → List String
  | _, [] => []
  | last, p :: rest =>
      if freq ≤ 0 ∨ p.2 - last ≥ freq then
        (toString p.1.id ++ " " ++ toString p.2 ++ " " ++ toString (getMousePos p.1).1 ++
          " " ++ toString (getMousePos p.1).2 ++ " " ++ p.1.type ++ " " ++ p.1.target) ::
          specInfoRows freq p.2 rest
      else specInfoRows freq last rest

/-- Concrete metrics used by the concrete traces below. -/
def m0 : Metrics :=
  { url := "u", screenw := 1024, screenh := 768, winw := 1024, winh := 700,
    docw := 1024, doch := 2000 }

/-- A tracking state with an established session and a non-empty buffer. -/
def c2State : State :=
  { settings := defaultSettings
    uid := some 42
    time := 0
    info := ["0 5 1 2 click /html"]
    initTimerArmed := false
    appendIntervalMs := some 30000
    pendingInit := false
    flushed := false }

/-- The state after the one-shot init timer fired: the first init request
is in flight, its `setUserId` callback pending. -/
def afterFirstInitSend : State :=
  (runTrace (initialState defaultSettings 0) [Action.initTimerFire m0]).2

/-- The state after the first deferred init send was answered `"0"`. -/
def zeroRespState : State :=
  (runTrace (initialState defaultSettings 0)
    [Action.initTimerFire m0, Action.initResponse "0"]).2

/-- The state after the first deferred init send was answered `"42"`. -/
def establishedState : State :=
  (runTrace (initialState defaultSettings 0)
    [Action.initTimerFire m0, Action.initResponse "42"]).2

/-- An established state holding two unsent records, as in spec
scenario 5. -/
def c5State : State :=
  { settings := defaultSettings
    uid := some 42
    time := 500
    info := ["0 100 5 6 click /html/body", "0 300 7 8 keydown /html/body"]
    initTimerArmed := false
    appendIntervalMs := some 30000
    pendingInit := false
    flushed := false }

/-- The send issued by an interval tick in `establishedState`, paired with
the state it was issued from. -/
def c6Pair : State × SendAction :=
  (establishedState,
   { payload := Payload.append (some 42) [], async := true, hasCallback := false })

/-- First contact point of the two-finger touch used below. -/
def touchA : RawEvent :=
  { id := 1, pageX := 10, pageY := 20, clientX := 0, clientY := 0,
    scrollLeft := 0, scrollTop := 0, type := "", target := "/html/body" }

/-- Second contact point of the two-finger touch used below. -/
def touchB : RawEvent :=
  { touchA with id := 2, pageX := 30, pageY := 40 }

/-- A fresh tracking state whose configuration disables sampling. -/
def noSamplingState : State :=
  initialState { defaultSettings with samplingFreq := 0 } 0

/-- The state after the first init response did not start with a digit:
`parseInt` stored `NaN` in `uid`. -/
def nanUidState : State :=
  (runTrace (initialState defaultSettings 0)
    [Action.initTimerFire m0, Action.initResponse "abc"]).2

/-- A concrete run: first init send, response `"42"`, one interval tick. -/
def c6Trace : List Action :=
  [Action.initTimerFire m0, Action.initResponse "42", Action.intervalTick]

/-- Invariant of every state reachable from `initialState` (or frozen by
the unload handler): the recurring interval only runs with a truthy uid;
a pending init request means the one-shot timer already fired and no
interval runs yet; an armed one-shot timer means nothing else has
happened; a truthy uid means no init response is still awaited. -/
def Reach (s : State) : Prop :=
  s.flushed = true ∨
    ((s.appendIntervalMs.isSome = true → uidTruthy s.uid = true) ∧
     (s.pendingInit = true → s.appendIntervalMs = none ∧ s.initTimerArmed = false) ∧
     (s.initTimerArmed = true →
        s.appendIntervalMs = none ∧ s.pendingInit = false ∧ s.uid = some 0) ∧
     (uidTruthy s.uid = true → s.pendingInit = false))

/-- The session is established with id `id` and no init activity can
still touch `uid`: no response callback pending, one-shot timer spent. -/
def Estab (id : Int) (s : State) : Prop :=
  s.uid = some id ∧ s.pendingInit = false ∧ s.initTimerArmed = false

end Evtrack

namespace Evtrack

/-! ### Helper lemmas -/

theorem shouldRecord_iff (f t n : Int) :
    shouldRecord f t n = true ↔ (f ≤ 0 ∨ n - t ≥ f) := by
  unfold shouldRecord
  by_cases h : f > 0
  · simp only [h, if_true, decide_eq_true_eq]
    omega
  · simp only [h, if_false]
    constructor
    · intro _
      omega
    · intro _
      trivial

theorem eventHandler_eq_ite (s : State) (e : RawEvent) (now : Int) :
    eventHandler s e now =
      if s.settings.samplingFreq ≤ 0 ∨ now - s.time ≥ s.settings.samplingFreq then
        { s with
            info := s.info ++
              [fillInfoRow e.id now (getMousePos e).1 (getMousePos e).2 e.type e.target]
            time := now }
      else s := by
  unfold eventHandler
  by_cases h : s.settings.samplingFreq ≤ 0 ∨ now - s.time ≥ s.settings.samplingFreq
  · rw [if_pos h, if_pos ((shouldRecord_iff _ _ _).2 h)]
  · rw [if_neg h, if_neg (fun hb => h ((shouldRecord_iff _ _ _).1 hb))]

theorem eventHandler_preserves (s : State) (e : RawEvent) (now : Int) :
    (eventHandler s e now).settings = s.settings ∧
    (eventHandler s e now).uid = s.uid ∧
    (eventHandler s e now).initTimerArmed = s.initTimerArmed ∧
    (eventHandler s e now).appendIntervalMs = s.appendIntervalMs ∧
    (eventHandler s e now).pendingInit = s.pendingInit ∧
    (eventHandler s e now).flushed = s.flushed := by
  unfold eventHandler
  by_cases h : shouldRecord s.settings.samplingFreq s.time now = true <;> simp [h]

theorem processEvents_preserves (l : List (RawEvent × Int)) (s : State) :
    (processEvents s l).settings = s.settings ∧
    (processEvents s l).uid = s.uid ∧
    (processEvents s l).initTimerArmed = s.initTimerArmed ∧
    (processEvents s l).appendIntervalMs = s.appendIntervalMs ∧
    (processEvents s l).pendingInit = s.pendingInit ∧
    (processEvents s l).flushed = s.flushed := by
  induction l generalizing s with
  | nil => simp [processEvents]
  | cons p rest ih =>
      have h1 := eventHandler_preserves s p.1 p.2
      have h2 := ih (eventHandler s p.1 p.2)
      simp only [processEvents]
      exact ⟨h2.1.trans h1.1, h2.2.1.trans h1.2.1, h2.2.2.1.trans h1.2.2.1,
        h2.2.2.2.1.trans h1.2.2.2.1, h2.2.2.2.2.1.trans h1.2.2.2.2.1,
        h2.2.2.2.2.2.trans h1.2.2.2.2.2⟩

theorem touchHandler_eq_processEvents (s : State) (ty : String)
    (ts : List RawEvent) (tms : List Int) :
    touchHandler s ty ts tms =
      processEvents s ((ts.zip tms).map (fun p => ({ p.1 with type := ty }, p.2))) := by
  unfold touchHandler
  generalize ts.zip tms = l
  induction l generalizing s with
  | nil => simp [processEvents]
  | cons p rest ih =>
      simp only [List.foldl_cons, List.map_cons, processEvents]
      exact ih _

theorem step_flushed (s : State) (a : Action) (h : s.flushed = true) :
    step s a = (none, s) := by
  unfold step
  rw [if_pos h]

theorem runTrace_flushed (acts : List Action) (s : State) (h : s.flushed = true) :
    runTrace s acts = ([], s) := by
  induction acts with
  | nil => rfl
  | cons a rest ih => simp [runTrace, step_flushed s a h, emits, ih]

end Evtrack

namespace Evtrack

theorem reach_initial (st : Settings) (t0 : Int) : Reach (initialState st t0) := by
  right
  refine ⟨?_, ?_, ?_, ?_⟩ <;> simp [initialState, uidTruthy]


theorem reach_step (s : State) (a : Action) (hr : Reach s) : Reach (step s a).2 := by
  by_cases hf : s.flushed = true
  · rw [step_flushed s a hf]; exact hr
  have hf' : s.flushed = false := by simpa using hf
  rcases hr with hfl | ⟨h1, h2, h3, h4⟩
  · exact absurd hfl hf
  cases a with
  | uiEvent e now =>
      simp only [step, hf', Bool.false_eq_true, if_false]
      right
      have hp := eventHandler_preserves s e now
      simp only [hp.1, hp.2.1, hp.2.2.1, hp.2.2.2.1, hp.2.2.2.2.1, hp.2.2.2.2.2]
      exact ⟨h1, h2, h3, h4⟩
  | touch ty ts tms =>
      simp only [step, hf', Bool.false_eq_true, if_false]
      right
      rw [touchHandler_eq_processEvents]
      have hp := processEvents_preserves
        ((ts.zip tms).map (fun p => ({ p.1 with type := ty }, p.2))) s
      simp only [hp.1, hp.2.1, hp.2.2.1, hp.2.2.2.1, hp.2.2.2.2.1, hp.2.2.2.2.2]
      exact ⟨h1, h2, h3, h4⟩
  | initTimerFire m =>
      simp only [step, hf', Bool.false_eq_true, if_false]
      by_cases ha : s.initTimerArmed = true
      · obtain ⟨hi1, hi2, hi3⟩ := h3 ha
        rw [if_pos ha]
        right
        refine ⟨?_, ?_, ?_, ?_⟩ <;> simp [initNewData, hi1, hi3, uidTruthy]
      · rw [if_neg ha]
        exact Or.inr ⟨h1, h2, h3, h4⟩
  | initResponse resp =>
      simp only [step, hf', Bool.false_eq_true, if_false]
      by_cases hp : s.pendingInit = true
      · obtain ⟨hi1, hi2⟩ := h2 hp
        rw [if_pos hp]
        right
        unfold setUserId
        by_cases ht : uidTruthy (parseIntJS resp) = true
        · rw [if_pos ht]
          refine ⟨?_, ?_, ?_, ?_⟩ <;> simp [ht, hi2]
        · rw [if_neg ht]
          refine ⟨?_, ?_, ?_, ?_⟩ <;> simp [ht, hi1, hi2]
      · rw [if_neg hp]
        exact Or.inr ⟨h1, h2, h3, h4⟩
  | intervalTick =>
      simp only [step, hf', Bool.false_eq_true, if_false]
      cases hm : s.appendIntervalMs with
      | none =>
          simp only [hm]
          exact Or.inr ⟨h1, h2, h3, h4⟩
      | some per =>
          simp only [hm, appendData]
          right
          refine ⟨?_, ?_, ?_, ?_⟩
          · intro _
            exact h1 (by rw [hm]; rfl)
          · intro hp
            exact absurd ((h2 hp).1.symm.trans hm) (by simp)
          · intro ht
            exact absurd ((h3 ht).1.symm.trans hm) (by simp)
          · intro hu
            exact h4 hu
  | unload m resp =>
      simp only [step, hf', Bool.false_eq_true, if_false]
      left
      rfl

end Evtrack

namespace Evtrack

theorem step_append_established (s : State) (a : Action) (sa : SendAction)
    (hout : (step s a).1 = some sa) (hr : Reach s)
    (happ : isAppend sa.payload = true) : uidTruthy s.uid = true := by
  by_cases hf : s.flushed = true
  · rw [step_flushed s a hf] at hout; cases hout
  have hf' : s.flushed = false := by simpa using hf
  rcases hr with hfl | ⟨h1, h2, h3, h4⟩
  · exact absurd hfl hf
  cases a with
  | uiEvent e now =>
      simp only [step, hf', Bool.false_eq_true, if_false] at hout
      cases hout
  | touch ty ts tms =>
      simp only [step, hf', Bool.false_eq_true, if_false] at hout
      cases hout
  | initTimerFire m =>
      simp only [step, hf', Bool.false_eq_true, if_false] at hout
      by_cases ha : s.initTimerArmed = true
      · rw [if_pos ha] at hout
        simp only [initNewData, Option.some.injEq] at hout
        rw [← hout] at happ
        simp [isAppend] at happ
      · rw [if_neg ha] at hout
        cases hout
  | initResponse resp =>
      simp only [step, hf', Bool.false_eq_true, if_false] at hout
      by_cases hp : s.pendingInit = true
      · rw [if_pos hp] at hout; cases hout
      · rw [if_neg hp] at hout; cases hout
  | intervalTick =>
      cases hm : s.appendIntervalMs with
      | none =>
          simp only [step, hf', Bool.false_eq_true, if_false, hm] at hout
          cases hout
      | some per => exact h1 (by rw [hm]; rfl)
  | unload m resp =>
      simp only [step, hf', Bool.false_eq_true, if_false] at hout
      by_cases hu : uidTruthy s.uid = true
      · exact hu
      · exfalso
        unfold flush at hout
        rw [if_neg hu] at hout
        simp only [initNewData, Option.some.injEq] at hout
        rw [← hout] at happ
        simp [isAppend] at happ

theorem reach_run (acts : List Action) (s : State) (hr : Reach s) :
    Reach (runTrace s acts).2 := by
  induction acts generalizing s with
  | nil => exact hr
  | cons a rest ih => exact ih _ (reach_step s a hr)

theorem runTrace_append_established (acts : List Action) (s : State) (hr : Reach s) :
    ∀ pr ∈ (runTrace s acts).1,
      isAppend pr.2.payload = true → uidTruthy pr.1.uid = true := by
  induction acts generalizing s with
  | nil =>
      intro pr hpr
      simp [runTrace] at hpr
  | cons a rest ih =>
      intro pr hpr happ
      simp only [runTrace, List.mem_append] at hpr
      rcases hpr with hpr | hpr
      · cases hout : (step s a).1 with
        | none =>
            rw [hout] at hpr
            simp [emits] at hpr
        | some sa =>
            rw [hout] at hpr
            simp only [emits, List.mem_singleton] at hpr
            rw [hpr]
            rw [hpr] at happ
            exact step_append_established s a sa hout hr happ
      · exact ih _ (reach_step s a hr) pr hpr happ

theorem estab_step (id : Int) (hid : id ≠ 0) (s : State) (a : Action) (h : Estab id s) :
    Estab id (step s a).2 ∧
      ∀ sa, (step s a).1 = some sa → ∃ l, sa.payload = Payload.append (some id) l := by
  obtain ⟨hu, hp, ht⟩ := h
  have htr : uidTruthy s.uid = true := by
    rw [hu]
    simpa [uidTruthy] using hid
  by_cases hf : s.flushed = true
  · rw [step_flushed s a hf]
    exact ⟨⟨hu, hp, ht⟩, fun sa hsa => by cases hsa⟩
  have hf' : s.flushed = false := by simpa using hf
  cases a with
  | uiEvent e now =>
      simp only [step, hf', Bool.false_eq_true, if_false]
      have hpz := eventHandler_preserves s e now
      exact ⟨⟨hpz.2.1.trans hu, hpz.2.2.2.2.1.trans hp, hpz.2.2.1.trans ht⟩,
        fun sa hsa => by cases hsa⟩
  | touch ty tsl tms =>
      simp only [step, hf', Bool.false_eq_true, if_false]
      rw [touchHandler_eq_processEvents]
      have hpz := processEvents_preserves
        ((tsl.zip tms).map (fun p => ({ p.1 with type := ty }, p.2))) s
      exact ⟨⟨hpz.2.1.trans hu, hpz.2.2.2.2.1.trans hp, hpz.2.2.1.trans ht⟩,
        fun sa hsa => by cases hsa⟩
  | initTimerFire m =>
      simp only [step, hf', Bool.false_eq_true, if_false]
      rw [if_neg (by rw [ht]; simp)]
      exact ⟨⟨hu, hp, ht⟩, fun sa hsa => by cases hsa⟩
  | initResponse resp =>
      simp only [step, hf', Bool.false_eq_true, if_false]
      rw [if_neg (by rw [hp]; simp)]
      exact ⟨⟨hu, hp, ht⟩, fun sa hsa => by cases hsa⟩
  | intervalTick =>
      simp only [step, hf', Bool.false_eq_true, if_false]
      cases hm : s.appendIntervalMs with
      | none => exact ⟨⟨hu, hp, ht⟩, fun sa hsa => by cases hsa⟩
      | some per =>
          constructor
          · exact ⟨hu, hp, ht⟩
          · intro sa hsa
            simp only [appendData, Option.some.injEq] at hsa
            exact ⟨s.info, by rw [← hsa, hu]⟩
  | unload m resp =>
      simp only [step, hf', Bool.false_eq_true, if_false]
      unfold flush
      rw [if_pos htr]
      constructor
      · exact ⟨hu, hp, ht⟩
      · intro sa hsa
        simp only [appendData, Option.some.injEq] at hsa
        exact ⟨s.info, by rw [← hsa, hu]⟩

theorem estab_run (id : Int) (hid : id ≠ 0) (acts : List Action) (s : State)
    (h : Estab id s) :
    Estab id (runTrace s acts).2 ∧
      ∀ pr ∈ (runTrace s acts).1, ∃ l, pr.2.payload = Payload.append (some id) l := by
  induction acts generalizing s with
  | nil =>
      refine ⟨h, ?_⟩
      intro pr hpr
      simp [runTrace] at hpr
  | cons a rest ih =>
      obtain ⟨h1, h2⟩ := estab_step id hid s a h
      obtain ⟨h3, h4⟩ := ih _ h1
      refine ⟨h3, ?_⟩
      intro pr hpr
      simp only [runTrace, List.mem_append] at hpr
      rcases hpr with hpr | hpr
      · cases hout : (step s a).1 with
        | none =>
            rw [hout] at hpr
            simp [emits] at hpr
        | some sa =>
            rw [hout] at hpr
            simp only [emits, List.mem_singleton] at hpr
            obtain ⟨l, hl⟩ := h2 sa hout
            exact ⟨l, by rw [hpr]; exact hl⟩
      · exact h4 pr hpr

end Evtrack

namespace Evtrack

theorem getMousePos_type_update (e : RawEvent) (ty : String) :
    getMousePos { e with type := ty } = getMousePos e := rfl

theorem processEvents_info (evs : List (RawEvent × Int)) (s : State) :
    (processEvents s evs).info =
      s.info ++ specInfoRows s.settings.samplingFreq s.time evs := by
  induction evs generalizing s with
  | nil => simp [processEvents, specInfoRows]
  | cons p rest ih =>
      simp only [processEvents]
      rw [ih, (eventHandler_preserves s p.1 p.2).1, eventHandler_eq_ite]
      by_cases h : s.settings.samplingFreq ≤ 0 ∨ p.2 - s.time ≥ s.settings.samplingFreq
      · rw [if_pos h]
        simp only [specInfoRows]
        rw [if_pos h]
        simp [fillInfoRow]
      · rw [if_neg h]
        simp only [specInfoRows]
        rw [if_neg h]

end Evtrack

namespace Evtrack

/-! ### Claim theorems -/

/-- C1: for every incoming event with capture time `timeNow`, if the
configured `samplingFreq` is ≤ 0 the event is recorded; otherwise it is
recorded iff `timeNow - time ≥ samplingFreq`, the frequency value used
directly as a millisecond threshold.  On acceptance the clock advances to
`timeNow` and exactly the new row is appended at the end of the buffer;
on rejection neither clock nor buffer (nor anything else) changes. -/
theorem sampling_gate_matches_spec (s : State) (e : RawEvent) (now : Int) :
    eventHandler s e now =
      if s.settings.samplingFreq ≤ 0 ∨ now - s.time ≥ s.settings.samplingFreq then
        { s with
            info := s.info ++
              [fillInfoRow e.id now (getMousePos e).1 (getMousePos e).2 e.type e.target]
            time := now }
      else s :=
  eventHandler_eq_ite s e now

/-- C2 counterexample: starting from a state with one buffered record, an
append send leaves the buffer empty.  The code clears the buffer right
after issuing the request, without ever observing the transport outcome
(`appendData` takes no outcome input), so on a failed send the buffered
records are dropped — the state is not "unchanged on error". -/
theorem buffer_cleared_despite_failed_send :
    c2State.info = ["0 5 1 2 click /html"] ∧
    (appendData c2State false).2.info = [] ∧
    (appendData c2State false).2 ≠ c2State := by
  refine ⟨rfl, rfl, ?_⟩
  decide

/-- C2 (amended): every send, init or append, synchronous or not, clears
the buffer whole and exactly once: the post-send state is exactly the
pre-send state with an empty buffer, independent of the transport
outcome, so a failed send's batch is dropped rather than retained. -/
theorem every_send_clears_buffer_whole (s : State) (m : Metrics) (a b : Bool) :
    (initNewData s m a).2 = { s with info := [] } ∧
    (appendData s b).2 = { s with info := [] } :=
  ⟨rfl, rfl⟩

/-- C3 counterexample: run the first deferred init send and answer `"0"`:
the session indeed stays unestablished, but the one-shot init timer has
already fired and no recurring interval was armed, so there is no next
timer tick — both timer actions are disabled no-ops that send nothing —
refuting the claimed subsequent init-retrying tick. -/
theorem no_timer_tick_after_zero_response :
    zeroRespState.uid = some 0 ∧
    zeroRespState.initTimerArmed = false ∧
    zeroRespState.appendIntervalMs = none ∧
    step zeroRespState Action.intervalTick = (none, zeroRespState) ∧
    step zeroRespState (Action.initTimerFire m0) = (none, zeroRespState) := by
  decide

/-- C3 (amended): a `"0"` response to the pending init request leaves the
session unestablished (uid stays the falsy 0), emits nothing, and arms no
timer — the one-shot timer flag and the recurring interval are exactly as
before, so no subsequent timer tick occurs.  The init is retried only at
teardown: a flush from the resulting state issues a synchronous init
payload. -/
theorem zero_response_retries_only_at_flush (s : State) (m : Metrics) (r : String)
    (hf : s.flushed = false) (hp : s.pendingInit = true) :
    (step s (Action.initResponse "0")).1 = none ∧
    (step s (Action.initResponse "0")).2.uid = some 0 ∧
    uidTruthy (step s (Action.initResponse "0")).2.uid = false ∧
    (step s (Action.initResponse "0")).2.appendIntervalMs = s.appendIntervalMs ∧
    (step s (Action.initResponse "0")).2.initTimerArmed = s.initTimerArmed ∧
    (step (step s (Action.initResponse "0")).2 (Action.unload m r)).1 =
      some { payload := Payload.init m (step s (Action.initResponse "0")).2.info
               s.settings.taskName s.settings.layoutType
             async := false
             hasCallback := true } := by
  have hz : parseIntJS "0" = some 0 := rfl
  have hs' : (step s (Action.initResponse "0")).2 =
      { s with uid := some 0, pendingInit := false } := by
    simp [step, hf, hp, setUserId, hz, uidTruthy]
  refine ⟨by simp [step, hf, hp], ?_, ?_, ?_, ?_, ?_⟩
  · rw [hs']
  · rw [hs']; rfl
  · rw [hs']
  · rw [hs']
  · rw [hs']
    simp [step, hf, flush, uidTruthy, initNewData]

/-- C3 amended witness: instantiated at the concrete state where the first
deferred init send has just fired and awaits its response. -/
theorem zero_response_retries_only_at_flush_witness :
    (afterFirstInitSend.flushed = false ∧ afterFirstInitSend.pendingInit = true) ∧
    ((step afterFirstInitSend (Action.initResponse "0")).1 = none ∧
     (step afterFirstInitSend (Action.initResponse "0")).2.uid = some 0 ∧
     uidTruthy (step afterFirstInitSend (Action.initResponse "0")).2.uid = false ∧
     (step afterFirstInitSend (Action.initResponse "0")).2.appendIntervalMs =
       afterFirstInitSend.appendIntervalMs ∧
     (step afterFirstInitSend (Action.initResponse "0")).2.initTimerArmed =
       afterFirstInitSend.initTimerArmed ∧
     (step (step afterFirstInitSend (Action.initResponse "0")).2
         (Action.unload m0 "0")).1 =
       some { payload := Payload.init m0
                (step afterFirstInitSend (Action.initResponse "0")).2.info
                afterFirstInitSend.settings.taskName
                afterFirstInitSend.settings.layoutType
              async := false
              hasCallback := true }) :=
  ⟨⟨by decide, by decide⟩,
    zero_response_retries_only_at_flush afterFirstInitSend m0 "0" (by decide) (by decide)⟩

end Evtrack

namespace Evtrack

/-- C4: for every init response whose parsed integer id is non-zero, when
that response reaches the pending callback the session becomes
established with that id and the recurring append interval is armed with
period `postInterval * 1000` milliseconds; the next interval tick issues
an asynchronous append payload carrying that uid, and every send issued
from then on — periodic tick or flush — is an append payload carrying
that uid. -/
theorem nonzero_response_establishes_and_appends (s : State) (r : String) (id : Int)
    (hf : s.flushed = false) (hp : s.pendingInit = true)
    (ht : s.initTimerArmed = false)
    (hpar : parseIntJS r = some id) (hid : id ≠ 0) :
    (step s (Action.initResponse r)).2.uid = some id ∧
    (step s (Action.initResponse r)).2.appendIntervalMs =
      some (s.settings.postInterval * 1000) ∧
    (step (step s (Action.initResponse r)).2 Action.intervalTick).1 =
      some { payload := Payload.append (some id)
               (step s (Action.initResponse r)).2.info
             async := true
             hasCallback := false } ∧
    ∀ acts : List Action, ∀ pr ∈ (runTrace (step s (Action.initResponse r)).2 acts).1,
      ∃ l, pr.2.payload = Payload.append (some id) l := by
  have htr : uidTruthy (some id) = true := by
    simp [uidTruthy, hid]
  have hs' : (step s (Action.initResponse r)).2 =
      { s with uid := some id, pendingInit := false,
               appendIntervalMs := some (s.settings.postInterval * 1000) } := by
    simp [step, hf, hp, setUserId, hpar, htr]
  refine ⟨by rw [hs'], by rw [hs'], ?_, ?_⟩
  · rw [hs']
    simp [step, hf, appendData]
  · intro acts
    have hE : Estab id (step s (Action.initResponse r)).2 := by
      rw [hs']
      exact ⟨rfl, rfl, ht⟩
    exact (estab_run id hid acts _ hE).2

/-- C4 witness: instantiated at the concrete state where the first
deferred init send has just fired and awaits its response, with the
concrete response `"42"` parsing to the non-zero id 42. -/
theorem nonzero_response_establishes_and_appends_witness :
    (afterFirstInitSend.flushed = false ∧ afterFirstInitSend.pendingInit = true ∧
     afterFirstInitSend.initTimerArmed = false ∧
     parseIntJS "42" = some 42 ∧ (42 : Int) ≠ 0) ∧
    ((step afterFirstInitSend (Action.initResponse "42")).2.uid = some 42 ∧
     (step afterFirstInitSend (Action.initResponse "42")).2.appendIntervalMs =
       some (afterFirstInitSend.settings.postInterval * 1000) ∧
     (step (step afterFirstInitSend (Action.initResponse "42")).2 Action.intervalTick).1 =
       some { payload := Payload.append (some 42)
                (step afterFirstInitSend (Action.initResponse "42")).2.info
              async := true
              hasCallback := false } ∧
     ∀ acts : List Action,
       ∀ pr ∈ (runTrace (step afterFirstInitSend (Action.initResponse "42")).2 acts).1,
         ∃ l, pr.2.payload = Payload.append (some 42) l) :=
  ⟨⟨by decide, by decide, by decide, by decide, by decide⟩,
    nonzero_response_establishes_and_appends afterFirstInitSend "42" 42
      (by decide) (by decide) (by decide) (by decide) (by decide)⟩

/-- C5: on page teardown, exactly one synchronous send is issued — an
append payload carrying the whole buffer when the session is established
(truthy uid), an init payload carrying the whole buffer otherwise — and
no send of any kind occurs afterwards: every continuation of the flushed
state emits nothing. -/
theorem teardown_single_sync_send (s : State) (m : Metrics) (r : String)
    (hf : s.flushed = false) :
    (step s (Action.unload m r)).1 =
      some (if uidTruthy s.uid then
              { payload := Payload.append s.uid s.info
                async := false
                hasCallback := false }
            else
              { payload := Payload.init m s.info s.settings.taskName s.settings.layoutType
                async := false
                hasCallback := true }) ∧
    (step s (Action.unload m r)).2.flushed = true ∧
    ∀ acts : List Action, (runTrace (step s (Action.unload m r)).2 acts).1 = [] := by
  have h2 : (step s (Action.unload m r)).2.flushed = true := by
    simp [step, hf]
  refine ⟨?_, h2, ?_⟩
  · by_cases hu : uidTruthy s.uid = true
    · rw [if_pos hu]
      simp [step, hf, flush, hu, appendData]
    · rw [if_neg hu]
      have hu' : uidTruthy s.uid = false := by simpa using hu
      simp [step, hf, flush, hu', initNewData]
  · intro acts
    rw [runTrace_flushed acts _ h2]

/-- C5 witness: teardown from an established state holding two unsent
records, as in spec scenario 5. -/
theorem teardown_single_sync_send_witness :
    c5State.flushed = false ∧
    ((step c5State (Action.unload m0 "")).1 =
      some (if uidTruthy c5State.uid then
              { payload := Payload.append c5State.uid c5State.info
                async := false
                hasCallback := false }
            else
              { payload := Payload.init m0 c5State.info c5State.settings.taskName
                  c5State.settings.layoutType
                async := false
                hasCallback := true }) ∧
     (step c5State (Action.unload m0 "")).2.flushed = true ∧
     ∀ acts : List Action, (runTrace (step c5State (Action.unload m0 "")).2 acts).1 = []) :=
  ⟨by decide, teardown_single_sync_send c5State m0 "" (by decide)⟩

/-- C6: in every execution from the initial state, an append payload is
only ever issued from a state whose uid is truthy, i.e. after a non-zero
session id has been received; every send issued while the session is
unestablished or pending is an init payload. -/
theorem no_append_while_unestablished (st : Settings) (t0 : Int) (acts : List Action)
    (pr : State × SendAction)
    (hmem : pr ∈ (runTrace (initialState st t0) acts).1)
    (happ : isAppend pr.2.payload = true) :
    uidTruthy pr.1.uid = true :=
  runTrace_append_established acts (initialState st t0) (reach_initial st t0) pr hmem happ

/-- C6 witness: the append send issued by the interval tick of a concrete
trace that establishes the session with id 42. -/
theorem no_append_while_unestablished_witness :
    c6Pair ∈ (runTrace (initialState defaultSettings 0) c6Trace).1 ∧
    isAppend c6Pair.2.payload = true ∧
    uidTruthy c6Pair.1.uid = true :=
  ⟨by decide, by decide,
    no_append_while_unestablished defaultSettings 0 c6Trace c6Pair (by decide) (by decide)⟩

/-- C7: once a trace from the initial state reaches a state whose uid is a
non-zero id, any continuation of the trace leaves that uid unchanged: no
timer tick, flush, or response callback ever assigns a different session
id for the remainder of the visit. -/
theorem established_id_never_changes (st : Settings) (t0 : Int)
    (acts more : List Action) (id : Int) (hid : id ≠ 0)
    (h : (runTrace (initialState st t0) acts).2.uid = some id) :
    (runTrace (runTrace (initialState st t0) acts).2 more).2.uid = some id := by
  have hr : Reach (runTrace (initialState st t0) acts).2 :=
    reach_run acts _ (reach_initial st t0)
  by_cases hf : (runTrace (initialState st t0) acts).2.flushed = true
  · rw [runTrace_flushed more _ hf]
    exact h
  rcases hr with hfl | ⟨h1, h2, h3, h4⟩
  · exact absurd hfl hf
  have htr : uidTruthy (runTrace (initialState st t0) acts).2.uid = true := by
    rw [h]
    simpa [uidTruthy] using hid
  have hE : Estab id (runTrace (initialState st t0) acts).2 := by
    refine ⟨h, h4 htr, ?_⟩
    by_cases ha : (runTrace (initialState st t0) acts).2.initTimerArmed = true
    · have h0 := (h3 ha).2.2
      rw [h] at h0
      exact absurd (Option.some.inj h0) hid
    · simpa using ha
  exact (estab_run id hid more _ hE).1.1

/-- C7 witness: establish id 42 by a concrete trace, then continue with an
interval tick; the uid is still 42. -/
theorem established_id_never_changes_witness :
    (42 : Int) ≠ 0 ∧
    (runTrace (initialState defaultSettings 0)
      [Action.initTimerFire m0, Action.initResponse "42"]).2.uid = some 42 ∧
    (runTrace (runTrace (initialState defaultSettings 0)
        [Action.initTimerFire m0, Action.initResponse "42"]).2
      [Action.intervalTick]).2.uid = some 42 :=
  ⟨by decide, by decide,
    established_id_never_changes defaultSettings 0
      [Action.initTimerFire m0, Action.initResponse "42"] [Action.intervalTick] 42
      (by decide) (by decide)⟩

end Evtrack

namespace Evtrack

/-- C8: processing any burst of captured events appends exactly the
accepted rows to the buffer in capture (insertion) order — the spec-side
`specInfoRows`, one string per record, each space-joined as
`cursorId timestamp x y eventKind targetLocator` — and the outbound
append payload's serialized `info` field is exactly that buffer joined by
the comma separator. -/
theorem info_field_preserves_capture_order (s : State) (evs : List (RawEvent × Int)) :
    (processEvents s evs).info =
      s.info ++ specInfoRows s.settings.samplingFreq s.time evs ∧
    payloadData (appendData (processEvents s evs) true).1.payload =
      "uid=" ++ jsNumToString (processEvents s evs).uid ++ "&info=" ++
        String.intercalate ","
          (s.info ++ specInfoRows s.settings.samplingFreq s.time evs) ++
        "&action=" ++ "append" := by
  refine ⟨processEvents_info evs s, ?_⟩
  simp only [appendData, payloadData, serializeInfo, processEvents_info evs s]

/-- C9 counterexample: with the default configuration (`samplingFreq = 10`),
a touch event with two simultaneous contact points (same capture
millisecond) produces exactly one record, not two: the first contact is
accepted and advances the sampling clock to the shared timestamp, so the
second contact fails the `>= samplingFreq` test. -/
theorem two_simultaneous_touches_single_record :
    (touchHandler (initialState defaultSettings 0) "touchstart"
        [touchA, touchB] [1000, 1000]).info =
      ["1 1000 10 20 touchstart /html/body"] ∧
    (touchHandler (initialState defaultSettings 0) "touchstart"
        [touchA, touchB] [1000, 1000]).info.length ≠ 2 := by
  refine ⟨by decide, by decide⟩

/-- C9 (amended): each contact point of a touch event is processed as an
independent `eventHandler` invocation carrying its own cursor identifier,
in per-finger order — `touchHandler` is literally the fold of
`eventHandler` over the contacts with the touch event's type — and each
contact is independently subject to the sampling filter.  Exactly 2
records result from a 2-contact touch when sampling is disabled
(`samplingFreq ≤ 0`); with `samplingFreq > 0` a later simultaneous
contact is dropped by the filter (see the counterexample). -/
theorem touch_contacts_processed_independently (s : State) (ty : String)
    (ts : List RawEvent) (tms : List Int) (t1 t2 : RawEvent) (n1 n2 : Int)
    (h : s.settings.samplingFreq ≤ 0) :
    touchHandler s ty ts tms =
      processEvents s ((ts.zip tms).map (fun p => ({ p.1 with type := ty }, p.2))) ∧
    (touchHandler s ty [t1, t2] [n1, n2]).info =
      s.info ++
        [fillInfoRow t1.id n1 (getMousePos t1).1 (getMousePos t1).2 ty t1.target,
         fillInfoRow t2.id n2 (getMousePos t2).1 (getMousePos t2).2 ty t2.target] := by
  refine ⟨touchHandler_eq_processEvents s ty ts tms, ?_⟩
  rw [touchHandler_eq_processEvents]
  have hl : (([t1, t2].zip [n1, n2]).map (fun p => ({ p.1 with type := ty }, p.2))) =
      [({ t1 with type := ty }, n1), ({ t2 with type := ty }, n2)] := rfl
  rw [hl, processEvents_info]
  simp only [specInfoRows]
  rw [if_pos (Or.inl h), if_pos (Or.inl h)]
  simp [fillInfoRow, getMousePos_type_update]

/-- C9 amended witness: a fresh state whose configuration disables
sampling, a two-contact touch at time 7. -/
theorem touch_contacts_processed_independently_witness :
    noSamplingState.settings.samplingFreq ≤ 0 ∧
    (touchHandler noSamplingState "touchstart" [touchA, touchB] [7, 7] =
       processEvents noSamplingState
         (([touchA, touchB].zip [7, 7]).map
           (fun p => ({ p.1 with type := "touchstart" }, p.2))) ∧
     (touchHandler noSamplingState "touchstart" [touchA, touchB] [7, 7]).info =
       noSamplingState.info ++
         [fillInfoRow touchA.id 7 (getMousePos touchA).1 (getMousePos touchA).2
            "touchstart" touchA.target,
          fillInfoRow touchB.id 7 (getMousePos touchB).1 (getMousePos touchB).2
            "touchstart" touchB.target]) :=
  ⟨by decide,
    touch_contacts_processed_independently noSamplingState "touchstart"
      [touchA, touchB] [7, 7] touchA touchB 7 7 (by decide)⟩

/-- C10: the init-response parser is integer-prefix parsing: `"42abc"`
parses to 42, so such a response establishes the session (uid 42,
recurring interval armed with the configured period), while a response
with no leading digits parses to NaN (`none`), which the timer-arming
check treats as unestablished (interval untouched) and which sends the
teardown flush down the init branch. -/
theorem integer_prefix_parsing_of_response (s s2 : State) (m : Metrics) (r : String)
    (hf : s.flushed = false) (hp : s.pendingInit = true)
    (h2u : s2.uid = none) (h2f : s2.flushed = false) :
    parseIntJS "42abc" = some 42 ∧
    parseIntJS "abc" = none ∧
    (step s (Action.initResponse "42abc")).2.uid = some 42 ∧
    (step s (Action.initResponse "42abc")).2.appendIntervalMs =
      some (s.settings.postInterval * 1000) ∧
    (step s (Action.initResponse "abc")).2.uid = none ∧
    (step s (Action.initResponse "abc")).2.appendIntervalMs = s.appendIntervalMs ∧
    (step s2 (Action.unload m r)).1 =
      some { payload := Payload.init m s2.info s2.settings.taskName s2.settings.layoutType
             async := false
             hasCallback := true } := by
  have hA : parseIntJS "42abc" = some 42 := rfl
  have hB : parseIntJS "abc" = none := rfl
  refine ⟨hA, hB, ?_, ?_, ?_, ?_, ?_⟩
  · simp [step, hf, hp, setUserId, hA, uidTruthy]
  · simp [step, hf, hp, setUserId, hA, uidTruthy]
  · simp [step, hf, hp, setUserId, hB, uidTruthy]
  · simp [step, hf, hp, setUserId, hB, uidTruthy]
  · have hu : uidTruthy s2.uid = false := by rw [h2u]; rfl
    simp [step, h2f, flush, hu, initNewData]

/-- C10 witness: instantiated at the pending-init state for the parsing
conclusions and at the concrete NaN-uid state for the flush conclusion. -/
theorem integer_prefix_parsing_of_response_witness :
    (afterFirstInitSend.flushed = false ∧ afterFirstInitSend.pendingInit = true ∧
     nanUidState.uid = none ∧ nanUidState.flushed = false) ∧
    (parseIntJS "42abc" = some 42 ∧
     parseIntJS "abc" = none ∧
     (step afterFirstInitSend (Action.initResponse "42abc")).2.uid = some 42 ∧
     (step afterFirstInitSend (Action.initResponse "42abc")).2.appendIntervalMs =
       some (afterFirstInitSend.settings.postInterval * 1000) ∧
     (step afterFirstInitSend (Action.initResponse "abc")).2.uid = none ∧
     (step afterFirstInitSend (Action.initResponse "abc")).2.appendIntervalMs =
       afterFirstInitSend.appendIntervalMs ∧
     (step nanUidState (Action.unload m0 "x")).1 =
       some { payload := Payload.init m0 nanUidState.info nanUidState.settings.taskName
                nanUidState.settings.layoutType
              async := false
              hasCallback := true }) :=
  ⟨⟨by decide, by decide, by decide, by decide⟩,
    integer_prefix_parsing_of_response afterFirstInitSend nanUidState m0 "x"
      (by decide) (by decide) (by decide) (by decide)⟩

end Evtrack
